import Mathlib

/-!
Verification of the propbot ingestion pipeline and retrieval engine.

The definitions below are a shallow embedding of the Python sources:
`propbot/pipeline/normalizer.py`, `propbot/pipeline/filters.py`,
`propbot/pipeline/storage.py`, `propbot/pipeline/orchestrator.py`,
`propbot/sources/sam.py`, `propbot/sources/grants.py`,
`propbot/embeddings/generator.py`, `propbot/embeddings/search.py`, and
`backend/main.py`.  External libraries (dateutil, the embedding provider,
the HTTP transport, FAISS vector arithmetic) appear as explicit function
parameters; machine-level effects (SQLite connections) are modelled as
explicit state passing with a live/committed pair.  Python exceptions are
modelled with `Except`.
-/

namespace Propbot

/-! ## Calendar dates and timestamps -/

/-- A calendar date (year, month, day), as carried by Python `datetime.date`. -/
structure Date where
  year : Nat
  month : Nat
  day : Nat
deriving Repr, DecidableEq

/-- A timestamp as carried by Python `datetime.datetime`: a date, a time of
day, and an optional UTC-offset in minutes (`tzinfo`); `none` models a naive
datetime. -/
structure DateTime where
  date : Date
  hour : Nat
  minute : Nat
  second : Nat
  tz : Option Int := none
deriving Repr, DecidableEq

/-- Gregorian leap-year test. -/
def isLeapYear (y : Nat) : Bool :=
  y % 4 == 0 && (y % 100 != 0 || y % 400 == 0)

/-- Number of days in a month of a given year. -/
def daysInMonth (y m : Nat) : Nat :=
  if m == 2 then (if isLeapYear y then 29 else 28)
  else if m == 4 || m == 6 || m == 9 || m == 11 then 30
  else 31

/-- The validity condition Python's `datetime` constructor enforces
(`MINYEAR = 1`, `MAXYEAR = 9999`, month and day in range). -/
def validDate (y m d : Nat) : Bool :=
  1 ≤ y && y ≤ 9999 && 1 ≤ m && m ≤ 12 && 1 ≤ d && d ≤ daysInMonth y m

/-- Strict calendar-date comparison, `d1 < d2` lexicographically, as Python
compares `datetime.date` values. -/
def beforeDate (d1 d2 : Date) : Bool :=
  d1.year < d2.year ||
  (d1.year == d2.year && (d1.month < d2.month ||
    (d1.month == d2.month && d1.day < d2.day)))

/-- Zero-pad a number to two digits, as `datetime.isoformat` prints months,
days, hours, minutes and seconds. -/
def pad2 (n : Nat) : String :=
  if n < 10 then "0" ++ toString n else toString n

/-- Zero-pad a number to four digits, as `datetime.isoformat` prints years. -/
def pad4 (n : Nat) : String :=
  if n < 10 then "000" ++ toString n
  else if n < 100 then "00" ++ toString n
  else if n < 1000 then "0" ++ toString n
  else toString n

/-- Render a UTC offset of `o` minutes as `datetime.isoformat` does
(`+HH:MM` or `-HH:MM`). -/
def isoOffset (o : Int) : String :=
  let sign := if o < 0 then "-" else "+"
  let a := o.natAbs
  sign ++ pad2 (a / 60) ++ ":" ++ pad2 (a % 60)

/-- `datetime.isoformat()` for a datetime with zero microseconds:
`YYYY-MM-DDTHH:MM:SS`, followed by the offset when the value is aware. -/
def isoFormatDateTime (dt : DateTime) : String :=
  pad4 dt.date.year ++ "-" ++ pad2 dt.date.month ++ "-" ++ pad2 dt.date.day ++
    "T" ++ pad2 dt.hour ++ ":" ++ pad2 dt.minute ++ ":" ++ pad2 dt.second ++
    (match dt.tz with
     | none => ""
     | some o => isoOffset o)

/-- Numeric value of a list of ASCII digit characters. -/
def toNatDigits (cs : List Char) : Nat :=
  cs.foldl (fun a c => 10 * a + (c.toNat - 48)) 0

/-- Python `str.strip()`: remove leading and trailing whitespace. -/
def pyStrip (s : String) : String :=
  ⟨((s.toList.dropWhile Char.isWhitespace).reverse.dropWhile Char.isWhitespace).reverse⟩

/-- Parse an optional fractional-seconds suffix plus optional offset, the
tail `datetime.fromisoformat` accepts after `HH:MM:SS`.  Returns the offset
(in minutes) on success. -/
def parseIsoTail (cs : List Char) : Option (Option Int) :=
  let parseOffset : List Char → Option (Option Int) := fun cs =>
    match cs with
    | [] => some none
    | [sgn, h1, h2, ':', m1, m2] =>
      if (sgn == '+' || sgn == '-') && [h1, h2, m1, m2].all Char.isDigit then
        let mins : Int := (toNatDigits [h1, h2] * 60 + toNatDigits [m1, m2] : Nat)
        some (some (if sgn == '-' then -mins else mins))
      else none
    | _ => none
  match cs with
  | '.' :: rest =>
    let frac := rest.takeWhile Char.isDigit
    if frac.length == 0 || 6 < frac.length then none
    else parseOffset (rest.dropWhile Char.isDigit)
  | _ => parseOffset cs

/-- `datetime.fromisoformat` restricted to the canonical shapes this program
stores: `YYYY-MM-DD`, optionally followed by `THH:MM:SS`, optional
fractional seconds and optional `±HH:MM` offset.  Returns `none` where
Python raises `ValueError`. -/
def parseIsoDateTimeStr (s : String) : Option DateTime :=
  match s.toList with
  | [y1, y2, y3, y4, '-', m1, m2, '-', d1, d2] =>
    if [y1, y2, y3, y4, m1, m2, d1, d2].all Char.isDigit then
      let y := toNatDigits [y1, y2, y3, y4]
      let m := toNatDigits [m1, m2]
      let d := toNatDigits [d1, d2]
      if validDate y m d then some ⟨⟨y, m, d⟩, 0, 0, 0, none⟩ else none
    else none
  | y1 :: y2 :: y3 :: y4 :: '-' :: m1 :: m2 :: '-' :: d1 :: d2 :: 'T' ::
      h1 :: h2 :: ':' :: n1 :: n2 :: ':' :: s1 :: s2 :: rest =>
    if [y1, y2, y3, y4, m1, m2, d1, d2, h1, h2, n1, n2, s1, s2].all Char.isDigit then
      let y := toNatDigits [y1, y2, y3, y4]
      let m := toNatDigits [m1, m2]
      let d := toNatDigits [d1, d2]
      let hh := toNatDigits [h1, h2]
      let nn := toNatDigits [n1, n2]
      let ss := toNatDigits [s1, s2]
      if validDate y m d && hh ≤ 23 && nn ≤ 59 && ss ≤ 59 then
        match parseIsoTail rest with
        | some tz => some ⟨⟨y, m, d⟩, hh, nn, ss, tz⟩
        | none => none
      else none
    else none
  | _ => none

/-! ## normalizer.py -/

/-- The exception pair `normalize_deadline`'s `except (ValueError,
TypeError)` clause catches: `datetime(...)` and `dateutil.parser.isoparse`
raise `ValueError` (including `ParserError`) for unparseable string input
and `TypeError` for inputs of the wrong type.  The value-level normalizer
below and the storage/orchestrator theorems quantify over environments
whose parsers raise only this caught pair; the flexible
`dateutil.parser.parse` used by `_parse_generic_date` is additionally
documented to raise `OverflowError`, which the clause does not catch — that
full raise surface is `DateutilError` further below, and the
exception-level normalizer built on it decides the totality claim. -/
inductive PyError where
  | valueError
  | typeError
deriving Repr, DecidableEq

/-- The external `dateutil.parser.parse` flexible parser, a collaborator of
`_parse_generic_date`: may fail with a parse exception, or return `None`,
or a datetime. -/
def GenericParser : Type := String → Except PyError (Option DateTime)

/-- The external `dateutil.parser.isoparse`, a collaborator of
`_parse_sam_date`: returns a datetime or raises. -/
def IsoParser : Type := String → Except PyError DateTime

/-- The external `astimezone(UTC).replace(tzinfo=None)` conversion applied
by `_parse_sam_date` to aware datetimes. -/
def UtcConv : Type := DateTime → DateTime

/-- The bundle of external date-library collaborators threaded through the
normalizer. -/
structure NormEnv where
  gp : GenericParser
  isoP : IsoParser
  uc : UtcConv

/-- `_parse_generic_date` from `normalizer.py`: run the flexible parser; on
`None` return `None`; if the parsed time component is exactly midnight,
default it to 23:59:59; render with `isoformat`. -/
def _parse_generic_date (env : NormEnv) (s : String) : Except PyError (Option String) :=
  match env.gp s with
  | .error e => .error e
  | .ok none => .ok none
  | .ok (some dt) =>
    let dt := if dt.hour == 0 && dt.minute == 0 && dt.second == 0 then
      { dt with hour := 23, minute := 59, second := 59 } else dt
    .ok (some (isoFormatDateTime dt))

/-- `_parse_grants_date` from `normalizer.py`: strip the input; if it is 8
digits, read it as MMDDYYYY and build `datetime(y, m, d, 23, 59, 59)`
(which raises `ValueError` for an invalid calendar date); otherwise fall
back to generic parsing. -/
def _parse_grants_date (env : NormEnv) (s : String) : Except PyError (Option String) :=
  let t := pyStrip s
  if t.toList.length == 8 && t.toList.all Char.isDigit then
    let m := toNatDigits (t.toList.take 2)
    let d := toNatDigits ((t.toList.drop 2).take 2)
    let y := toNatDigits (t.toList.drop 4)
    if validDate y m d then
      .ok (some (isoFormatDateTime ⟨⟨y, m, d⟩, 23, 59, 59, none⟩))
    else .error .valueError
  else _parse_generic_date env t

/-- `_parse_sam_date` from `normalizer.py`: strip, `isoparse`, convert
aware datetimes to naive UTC, render with `isoformat`. -/
def _parse_sam_date (env : NormEnv) (s : String) : Except PyError (Option String) :=
  match env.isoP (pyStrip s) with
  | .error e => .error e
  | .ok dt =>
    .ok (some (isoFormatDateTime (if dt.tz.isSome then env.uc dt else dt)))

/-- The body of `normalize_deadline`'s `try` block: dispatch on the source
tag, letting parse exceptions propagate. -/
def rawNormalize (env : NormEnv) (s : String) (source : String) : Except PyError (Option String) :=
  if source == "grants.gov" then _parse_grants_date env s
  else if source == "sam.gov" then _parse_sam_date env s
  else _parse_generic_date env s

/-- `normalize_deadline` from `normalizer.py`: falsy or N/A input gives
`None`; otherwise dispatch by source, catching `ValueError` and `TypeError`
and turning them into `None`. -/
def normalize_deadline (env : NormEnv) (deadline_str : Option String) (source : String) :
    Option String :=
  match deadline_str with
  | none => none
  | some s =>
    if s == "" || s == "N/A" || s == "n/a" then none
    else
      match rawNormalize env s source with
      | .ok v => v
      | .error .valueError => none
      | .error .typeError => none

/-- `parse_iso_date` from `normalizer.py`: falsy input gives `None`;
otherwise `datetime.fromisoformat`, with `ValueError` turned into `None`. -/
def parse_iso_date (iso_str : Option String) : Option DateTime :=
  match iso_str with
  | none => none
  | some s => if s == "" then none else parseIsoDateTimeStr s

/-! ### The normalizer's full exception surface

`dateutil.parser.parse` documents three raises for string input:
`ParserError` (a `ValueError`), `TypeError`, and `OverflowError` ("if the
parsed date exceeds the largest valid C integer on your system").
`normalize_deadline`'s `except (ValueError, TypeError)` clause does not
catch the third, so the exception-level model of the normalizer must keep
it.  `datetime(...)` and `isoparse` raise only the caught pair. -/

/-- The documented raise surface of `dateutil.parser.parse`. -/
inductive DateutilError where
  | valueError
  | typeError
  | overflowError
deriving Repr, DecidableEq

/-- Embed the caught pair into the full raise surface. -/
def liftCaught : PyError → DateutilError
  | .valueError => .valueError
  | .typeError => .typeError

/-- The external `dateutil.parser.parse` with its full documented raise
surface. -/
def GenericParserExc : Type := String → Except DateutilError (Option DateTime)

/-- The external date-library collaborators with `dateutil.parser.parse`
carrying its full raise surface; `isoparse` still raises only the caught
pair. -/
structure NormEnvExc where
  gp : GenericParserExc
  isoP : IsoParser
  uc : UtcConv

/-- `_parse_generic_date` at the exception level: identical logic, but the
flexible parser may also raise `OverflowError`, which propagates. -/
def _parse_generic_date_exc (env : NormEnvExc) (s : String) :
    Except DateutilError (Option String) :=
  match env.gp s with
  | .error e => .error e
  | .ok none => .ok none
  | .ok (some dt) =>
    let dt := if dt.hour == 0 && dt.minute == 0 && dt.second == 0 then
      { dt with hour := 23, minute := 59, second := 59 } else dt
    .ok (some (isoFormatDateTime dt))

/-- `_parse_grants_date` at the exception level: the 8-digit branch raises
only the `datetime` constructor's `ValueError`; the fallback is the
exception-level generic parse. -/
def _parse_grants_date_exc (env : NormEnvExc) (s : String) :
    Except DateutilError (Option String) :=
  let t := pyStrip s
  if t.toList.length == 8 && t.toList.all Char.isDigit then
    let m := toNatDigits (t.toList.take 2)
    let d := toNatDigits ((t.toList.drop 2).take 2)
    let y := toNatDigits (t.toList.drop 4)
    if validDate y m d then
      .ok (some (isoFormatDateTime ⟨⟨y, m, d⟩, 23, 59, 59, none⟩))
    else .error .valueError
  else _parse_generic_date_exc env t

/-- `_parse_sam_date` at the exception level: `isoparse` raises only the
caught pair, embedded into the full surface. -/
def _parse_sam_date_exc (env : NormEnvExc) (s : String) :
    Except DateutilError (Option String) :=
  match env.isoP (pyStrip s) with
  | .error e => .error (liftCaught e)
  | .ok dt =>
    .ok (some (isoFormatDateTime (if dt.tz.isSome then env.uc dt else dt)))

/-- The body of `normalize_deadline`'s `try` block at the exception
level. -/
def rawNormalizeExc (env : NormEnvExc) (s : String) (source : String) :
    Except DateutilError (Option String) :=
  if source == "grants.gov" then _parse_grants_date_exc env s
  else if source == "sam.gov" then _parse_sam_date_exc env s
  else _parse_generic_date_exc env s

/-- `normalize_deadline` at the exception level: the `except (ValueError,
TypeError)` clause turns exactly those two exceptions into `None`; an
`OverflowError` from the flexible parser is not caught and propagates to
the caller. -/
def normalize_deadline_exc (env : NormEnvExc) (deadline_str : Option String)
    (source : String) : Except DateutilError (Option String) :=
  match deadline_str with
  | none => .ok none
  | some s =>
    if s == "" || s == "N/A" || s == "n/a" then .ok none
    else
      match rawNormalizeExc env s source with
      | .ok v => .ok v
      | .error .valueError => .ok none
      | .error .typeError => .ok none
      | .error .overflowError => .error .overflowError

/-- Embed a caught-pair environment into the full raise surface. -/
def NormEnv.toExc (env : NormEnv) : NormEnvExc :=
  { gp := fun s =>
      match env.gp s with
      | .ok v => .ok v
      | .error e => .error (liftCaught e)
    isoP := env.isoP
    uc := env.uc }

/-! ## filters.py -/

/-- `is_expired` from `filters.py`: missing deadline is expired; unparseable
deadline is expired; otherwise expired iff the deadline's calendar date is
strictly before the reference date. -/
def is_expired (deadline_iso : Option String) (reference_date : Date) : Bool :=
  match deadline_iso with
  | none => true
  | some _ =>
    match parse_iso_date deadline_iso with
    | none => true
    | some dt => beforeDate dt.date reference_date

/-! ## storage.py -/

/-- Python truthiness of an optional string: `None` and `""` are falsy. -/
def pyTruthy : Option String → Bool
  | none => false
  | some s => !s.isEmpty

/-- A raw opportunity record as the adapters yield it: a dict whose `.get`
lookups return `None` for absent keys. -/
structure RawRecord where
  opportunity_id : Option String := none
  title : Option String := none
  description : Option String := none
  agency : Option String := none
  deadline : Option String := none
  funding_amount : Option Int := none
  naics_code : Option String := none
  cfda_numbers : Option (List String) := none
  url : Option String := none
  notice_type : Option String := none
  matched_keywords : Option String := none
  matched_naics : Option String := none
deriving Repr, DecidableEq

/-- A row of the `opportunities` table, with the columns the pipeline
writes; `id` is the SQLite rowid. -/
structure OppRow where
  id : Nat
  opportunity_id : String
  source : String
  title : Option String
  description : Option String
  agency : Option String
  deadline : Option String
  funding_amount : Option Int
  naics_code : Option String
  cfda_numbers : Option (List String)
  url : Option String
  notice_type : Option String
  matched_keywords : Option String
  matched_naics : Option String
  updated_at : Option Nat
deriving Repr, DecidableEq

/-- `OpportunityStorage.upsert_opportunity` from `storage.py`: a falsy
`opportunity_id` returns `False` without touching the table; otherwise the
deadline is normalized and the row with that `opportunity_id` is either
updated in place (returning `False`) or freshly inserted (returning
`True`).  The table is passed as `(rows, next rowid)`; `now` stands for
`CURRENT_TIMESTAMP`. -/
def upsert_opportunity (env : NormEnv) (now : Nat) (db : List OppRow) (nextId : Nat)
    (record : RawRecord) (source : String) : List OppRow × Nat × Bool :=
  if !pyTruthy record.opportunity_id then (db, nextId, false)
  else
    let oid := record.opportunity_id.getD ""
    let deadline := normalize_deadline env record.deadline source
    match db.find? (fun r => r.opportunity_id == oid) with
    | some _ =>
      (db.map (fun r => if r.opportunity_id == oid then
        { r with
          title := record.title
          description := record.description
          agency := record.agency
          deadline := deadline
          funding_amount := record.funding_amount
          naics_code := record.naics_code
          cfda_numbers := record.cfda_numbers
          url := record.url
          notice_type := record.notice_type
          matched_keywords := record.matched_keywords
          matched_naics := record.matched_naics
          updated_at := some now } else r),
       nextId, false)
    | none =>
      (db ++ [{ id := nextId
                opportunity_id := oid
                source := source
                title := record.title
                description := record.description
                agency := record.agency
                deadline := deadline
                funding_amount := record.funding_amount
                naics_code := record.naics_code
                cfda_numbers := record.cfda_numbers
                url := record.url
                notice_type := record.notice_type
                matched_keywords := record.matched_keywords
                matched_naics := record.matched_naics
                updated_at := none }],
       nextId + 1, true)

/-- A row of the `ingest_runs` table.  Modelled from the spec: the
`schema.sql` file is not under `src/`, so the column defaults follow §4.5
of the spec (a run starts `running` with zero counters and no completion
data). -/
structure RunRow where
  id : Nat
  source : String
  status : String
  records_fetched : Nat
  records_filtered_expired : Nat
  records_filtered_capability : Nat
  records_inserted : Nat
  records_updated : Nat
  error_message : Option String
  completed_at : Option Nat
deriving Repr, DecidableEq

/-- The in-memory counters of `IngestRunTracker`. -/
structure Tracker where
  run_id : Nat
  source : String
  records_fetched : Nat := 0
  records_filtered_expired : Nat := 0
  records_filtered_capability : Nat := 0
  records_inserted : Nat := 0
  records_updated : Nat := 0
deriving Repr, DecidableEq

/-- The SQLite database contents: the `opportunities` table with its next
rowid and the `ingest_runs` table with its next rowid. -/
structure Store where
  opps : List OppRow := []
  nextOppId : Nat := 1
  runs : List RunRow := []
  nextRunId : Nat := 1
deriving Repr, DecidableEq

/-- A SQLite connection: uncommitted statements act on `live`; `commit`
publishes `live` as `committed`. -/
structure Conn where
  live : Store := {}
  committed : Store := {}
deriving Repr, DecidableEq

/-- `conn.commit()`. -/
def Conn.commit (c : Conn) : Conn := { c with committed := c.live }

/-- `IngestRunTracker.__init__` from `storage.py`: insert a fresh
`ingest_runs` row, commit, and start all counters at zero. -/
def trackerInit (c : Conn) (source : String) : Tracker × Conn :=
  let rid := c.live.nextRunId
  let run : RunRow :=
    { id := rid, source := source, status := "running"
      records_fetched := 0, records_filtered_expired := 0
      records_filtered_capability := 0, records_inserted := 0
      records_updated := 0, error_message := none, completed_at := none }
  let c := { c with live := { c.live with runs := c.live.runs ++ [run], nextRunId := rid + 1 } }
  ({ run_id := rid, source := source }, c.commit)

/-- `IngestRunTracker.complete` from `storage.py`: write the final status
(`failed` when an error message is present, else `completed`), the
accumulated counters and the error message into the run's row, then
commit. -/
def trackerComplete (t : Tracker) (error_message : Option String) (now : Nat) (c : Conn) : Conn :=
  let status := if error_message.isSome then "failed" else "completed"
  let c := { c with live := { c.live with runs := c.live.runs.map (fun (r : RunRow) =>
    if r.id == t.run_id then
      { r with
        status := status
        records_fetched := t.records_fetched
        records_filtered_expired := t.records_filtered_expired
        records_filtered_capability := t.records_filtered_capability
        records_inserted := t.records_inserted
        records_updated := t.records_updated
        error_message := error_message
        completed_at := some now } else r) } }
  c.commit

/-- `filter_freshness_only` from `filters.py`: normalize the deadline and
drop the record with reason `"expired"` when `is_expired` holds. -/
def filter_freshness_only (env : NormEnv) (record : RawRecord) (source : String)
    (reference_date : Date) : Option RawRecord × String :=
  let deadline_iso := normalize_deadline env record.deadline source
  if is_expired deadline_iso reference_date then (none, "expired") else (some record, "")

/-! ## orchestrator.py -/

/-- One iteration of the record loop in `_process_source`: count the fetch,
apply the freshness filter (a dropped record skips the rest of the loop
body, including the periodic commit), upsert survivors, classify the
outcome, and commit every 100 fetched records. -/
def processRecord (env : NormEnv) (reference_date : Date) (now : Nat) (source : String)
    (s : Tracker × Conn) (record : RawRecord) : Tracker × Conn :=
  let t := { s.1 with records_fetched := s.1.records_fetched + 1 }
  let c := s.2
  match filter_freshness_only env record source reference_date with
  | (none, reason) =>
    if reason == "expired" then
      ({ t with records_filtered_expired := t.records_filtered_expired + 1 }, c)
    else (t, c)
  | (some fr, _) =>
    let r : List OppRow × Nat × Bool :=
      upsert_opportunity env now c.live.opps c.live.nextOppId fr source
    let c := { c with live := { c.live with opps := r.1, nextOppId := r.2.1 } }
    let t := if r.2.2 then { t with records_inserted := t.records_inserted + 1 }
             else { t with records_updated := t.records_updated + 1 }
    if t.records_fetched % 100 == 0 then (t, c.commit) else (t, c)

/-- `_process_source` from `orchestrator.py`.  The adapter's sequence is
given as the list of records it yields, followed by `fetchError` when the
iteration ends by raising instead of exhausting.  On success: final commit,
`tracker.complete()`, return the tracker.  On failure:
`tracker.complete(error_message)` (whose own commit publishes the pending
upserts) and re-raise, modelled as `.error` carrying the message and the
connection state. -/
def processSource (env : NormEnv) (reference_date : Date) (now : Nat) (c : Conn)
    (source : String) (records : List RawRecord) (fetchError : Option String) :
    Except (String × Conn) (Tracker × Conn) :=
  let s := trackerInit c source
  let s := records.foldl (processRecord env reference_date now source) s
  match fetchError with
  | some msg => .error (msg, trackerComplete s.1 (some msg) now s.2)
  | none => .ok (s.1, trackerComplete s.1 none now s.2.commit)

/-! ## sources/sam.py -/

/-- The `naicsCode` field of a SAM.gov API record, which `sam.py` handles
both as a list and as a scalar. -/
inductive NaicsField where
  | absent
  | strVal (s : String)
  | listVal (l : List String)
deriving Repr, DecidableEq

/-- A raw contract dict from the SAM.gov API, with the keys
`_normalize_contract` reads. -/
structure SamContract where
  noticeId : Option String := none
  title : Option String := none
  description : Option String := none
  department : Option String := none
  fullParentPathName : Option String := none
  responseDeadLine : Option String := none
  archiveDate : Option String := none
  naicsCode : NaicsField := .absent
  type : Option String := none
deriving Repr, DecidableEq

/-- Python `a or b` over optional strings: the left value when truthy,
otherwise the right. -/
def pyOrStr (a b : Option String) : Option String :=
  if pyTruthy a then a else b

/-- `SamGovSource._normalize_contract` from `sam.py`. -/
def _normalize_contract (c : SamContract) : RawRecord :=
  let notice_id := c.noticeId.getD ""
  let url := if notice_id.isEmpty then none
    else some ("https://sam.gov/opp/" ++ notice_id ++ "/view")
  let naics_code := match c.naicsCode with
    | .absent => none
    | .strVal s => if s.isEmpty then none else some s
    | .listVal [] => none
    | .listVal (x :: _) => some x
  { opportunity_id := some notice_id
    title := if pyTruthy c.title then some (pyStrip (c.title.getD "")) else none
    description := if pyTruthy c.description then some (pyStrip (c.description.getD "")) else none
    agency := pyOrStr c.department c.fullParentPathName
    deadline := pyOrStr c.responseDeadLine c.archiveDate
    funding_amount := none
    naics_code := naics_code
    cfda_numbers := none
    url := url
    notice_type := c.type }

/-- The successive responses of the SAM.gov paginated transport: for each
requested offset in order, either a `requests.RequestException` or the
`opportunitiesData` list of the decoded page. -/
def SamPages : Type := List (Except Unit (List SamContract))

/-- The pagination loop of `SamGovSource.fetch`: a transport error breaks
the loop (logged, not raised), an empty page breaks the loop, and otherwise
every contract of the page is normalized and yielded before the next page
is requested. -/
def samFetchLoop : SamPages → List RawRecord
  | [] => []
  | .error _ :: _ => []
  | .ok [] :: _ => []
  | .ok cs :: rest => cs.map _normalize_contract ++ samFetchLoop rest

/-- `SamGovSource.fetch` from `sam.py`: raise `ValueError` when
`SAM_API_KEY` is falsy, otherwise run the pagination loop; the list of
records it yields is returned, and the only raising path is the missing
key. -/
def samFetch (apiKey : Option String) (pages : SamPages) : Except String (List RawRecord) :=
  if !pyTruthy apiKey then .error "SAM_API_KEY is not configured"
  else .ok (samFetchLoop pages)

/-! ## sources/grants.py -/

/-- `GrantsGovSource.fetch` from `grants.py`.  The transport internals are
parameters: `zipUrl` is the result of `_get_latest_zip_url` (`none` when
the directory request fails or lists no ZIP), `downloaded` the result of
`_download_and_extract` followed by `_parse_xml` (`none` when the download
fails or the archive is invalid, otherwise the parsed records).  Either
failure ends the generator normally with no records and no exception. -/
def grantsFetch (zipUrl : Option String) (downloaded : Option (List RawRecord)) :
    Except String (List RawRecord) :=
  match zipUrl with
  | none => .ok []
  | some _ =>
    match downloaded with
    | none => .ok []
    | some items => .ok items

/-! ## embeddings/generator.py -/

/-- An entry of the FAISS id map: `{db_id, opportunity_id, source}`. -/
structure IdEntry where
  db_id : Nat
  opportunity_id : String
  source : String
deriving Repr, DecidableEq

/-- `EmbeddingGenerator._build_searchable_text`: concatenate the title and
the description capped at 2000 characters, stripped. -/
def _build_searchable_text (title description : Option String) : String :=
  let t := title.getD ""
  let d := description.getD ""
  let d := if 2000 < d.length then d.take 2000 ++ "..." else d
  pyStrip (t ++ "\n" ++ d)

/-- Split a list into consecutive batches of `bs` elements, as the loop
`for i in range(0, len(texts), batch_size)` does; `bs = 0` (on which Python
`range` raises) yields no batches. -/
def chunkList {α : Type} : Nat → List α → List (List α)
  | 0, _ => []
  | _ + 1, [] => []
  | n + 1, x :: xs => ((x :: xs).take (n + 1)) :: chunkList (n + 1) ((x :: xs).drop (n + 1))
termination_by _ l => l.length
decreasing_by
  simp only [List.length_drop, List.length_cons]
  omega

/-- `EmbeddingGenerator.generate_index` from `generator.py`, over an
abstract vector type `V`.  `embedFn` is the external embedding provider
applied per batch; `norm` is row-wise `faiss.normalize_L2`.  With no
stored opportunities the function returns early and writes nothing
(`none`); otherwise it builds, in one pass over the rows, the parallel
`texts` and `id_map` lists, embeds the texts in batches, stacks and
normalizes the vectors, and persists the index rows together with the id
map. -/
def generate_index {V : Type} (embedFn : List String → List V) (norm : V → V)
    (batch_size : Nat) (opps : List OppRow) : Option (List V × List IdEntry) :=
  if opps = [] then none
  else
    let texts := opps.map (fun r => _build_searchable_text r.title r.description)
    let id_map := opps.map (fun r =>
      ({ db_id := r.id, opportunity_id := r.opportunity_id, source := r.source } : IdEntry))
    let allEmb := ((chunkList batch_size texts).map embedFn).flatten
    some (allEmb.map norm, id_map)

/-! ## embeddings/search.py -/

/-- A search hit as `SemanticSearch.search` builds it; similarity scores
are modelled as rationals, which the comparisons in the code treat
abstractly. -/
structure SearchResult where
  db_id : Nat
  opportunity_id : String
  source : String
  score : Rat
deriving Repr, DecidableEq

/-- Python list indexing as applied to `self.id_map[idx]`: non-negative
indices from the front, negative indices from the back, `IndexError`
(modelled as `none`) outside the list. -/
def pyIndexList (l : List IdEntry) (i : Int) : Option IdEntry :=
  if 0 ≤ i then l.get? i.toNat
  else if 0 ≤ (l.length : Int) + i then l.get? ((l.length : Int) + i).toNat
  else none

/-- The number of neighbors `SemanticSearch.search` requests from FAISS:
`k * 3` when a (truthy) source filter is active, else `k`. -/
def searchK (k : Nat) (source_filter : Option String) : Nat :=
  if pyTruthy source_filter then 3 * k else k

/-- The result loop of `SemanticSearch.search` over the neighbor list
returned by FAISS: skip the `-1` sentinel slots, skip scores below
`min_score`, look the index up in the id map (`.error` models the
`IndexError` an out-of-range index would raise), skip entries whose source
does not match an active filter, and stop as soon as `k` results are
accumulated.  `count` is the number of results accumulated so far. -/
def searchLoop (id_map : List IdEntry) (source_filter : Option String) (min_score : Rat)
    (k : Nat) : List (Rat × Int) → Nat → Except Unit (List SearchResult)
  | [], _ => .ok []
  | (score, idx) :: rest, count =>
    if idx == -1 then searchLoop id_map source_filter min_score k rest count
    else if score < min_score then searchLoop id_map source_filter min_score k rest count
    else
      match pyIndexList id_map idx with
      | none => .error ()
      | some entry =>
        if pyTruthy source_filter && some entry.source != source_filter then
          searchLoop id_map source_filter min_score k rest count
        else
          let r : SearchResult :=
            { db_id := entry.db_id, opportunity_id := entry.opportunity_id
              source := entry.source, score := score }
          if k ≤ count + 1 then .ok [r]
          else
            match searchLoop id_map source_filter min_score k rest (count + 1) with
            | .ok rs => .ok (r :: rs)
            | .error e => .error e

/-- `SemanticSearch.search` from `search.py`, given the id map and the
`(score, index)` pairs FAISS returned for the embedded query. -/
def search (id_map : List IdEntry) (neighbors : List (Rat × Int)) (k : Nat)
    (source_filter : Option String) (min_score : Rat) : Except Unit (List SearchResult) :=
  searchLoop id_map source_filter min_score k neighbors 0

/-- A Python value stored in a result dict. -/
inductive PyVal where
  | vNone
  | vStr (s : String)
  | vNat (n : Nat)
  | vInt (i : Int)
  | vRat (q : Rat)
  | vStrList (l : List String)
deriving Repr, DecidableEq

/-- A Python dict as an association list of its items. -/
def PyDict : Type := List (String × PyVal)

/-- `dict.get(key)`: the value of the first matching key, `None` (here
`none`) when the key is absent. -/
def dictGet (d : PyDict) (key : String) : Option PyVal :=
  (d.find? (fun kv => kv.1 == key)).map (fun kv => kv.2)

/-- Lift an optional string into a dict value. -/
def pvStr : Option String → PyVal
  | none => .vNone
  | some s => .vStr s

/-- Lift an optional integer into a dict value. -/
def pvInt : Option Int → PyVal
  | none => .vNone
  | some i => .vInt i

/-- Lift an optional string list into a dict value. -/
def pvStrList : Option (List String) → PyVal
  | none => .vNone
  | some l => .vStrList l

/-- The result dict `search_with_details` builds for one database row: the
eleven selected columns plus `similarity_score`.  The `SELECT` column list
does not include `notice_type`, so the dict carries no such key. -/
def detailRow (r : OppRow) (score : Rat) : PyDict :=
  [("id", .vNat r.id),
   ("opportunity_id", .vStr r.opportunity_id),
   ("source", .vStr r.source),
   ("title", pvStr r.title),
   ("description", pvStr r.description),
   ("agency", pvStr r.agency),
   ("deadline", pvStr r.deadline),
   ("funding_amount", pvInt r.funding_amount),
   ("naics_code", pvStr r.naics_code),
   ("cfda_numbers", pvStrList r.cfda_numbers),
   ("url", pvStr r.url),
   ("similarity_score", .vRat score)]

/-- The `scores_by_id` dict lookup: the score of the last match with the
given `db_id` (a dict comprehension keeps the last write per key). -/
def scoreForId (hits : List SearchResult) (i : Nat) : Option Rat :=
  (hits.reverse.find? (fun m => m.db_id == i)).map (fun m => m.score)

/-- The score sort key `x["similarity_score"]` of a result dict. -/
def scoreKey (d : PyDict) : Rat :=
  match dictGet d "similarity_score" with
  | some (.vRat q) => q
  | _ => 0

/-- Stable insertion of a dict into a score-descending list: the element
being inserted originally precedes the list it is inserted into, so it
passes only strictly greater scores and lands before any tie, preserving
the original order of equal scores as `list.sort(key=..., reverse=True)`
does. -/
def insertByScoreDesc (x : PyDict) : List PyDict → List PyDict
  | [] => [x]
  | y :: ys => if scoreKey x < scoreKey y then y :: insertByScoreDesc x ys else x :: y :: ys

/-- Stable sort of result dicts by descending `similarity_score`. -/
def sortByScoreDesc (l : List PyDict) : List PyDict :=
  l.foldr insertByScoreDesc []

/-- `SemanticSearch.search_with_details` from `search.py`: run `search`,
return `[]` on no matches, otherwise select the matching rows from the
`opportunities` table (in table order, as `WHERE id IN (...)` scans),
attach each row's score from `scores_by_id`, and sort by descending
similarity score. -/
def search_with_details (db : List OppRow) (id_map : List IdEntry)
    (neighbors : List (Rat × Int)) (k : Nat) (source_filter : Option String)
    (min_score : Rat) : Except Unit (List PyDict) :=
  match search id_map neighbors k source_filter min_score with
  | .error e => .error e
  | .ok hits =>
    if hits.isEmpty then .ok []
    else
      let db_ids := hits.map (fun m => m.db_id)
      let rows := db.filter (fun r => db_ids.contains r.id)
      let results := rows.filterMap (fun r =>
        (scoreForId hits r.id).map (fun sc => detailRow r sc))
      .ok (sortByScoreDesc results)

/-! ## backend/main.py -/

/-- `RFI_NOTICE_TYPES` from `backend/main.py`. -/
def RFI_NOTICE_TYPES : List String := ["Sources Sought", "Special Notice"]

/-- The Python test `notice_type in RFI_NOTICE_TYPES` where `notice_type`
is the result of `item.get("notice_type")`: an absent key gives `None`,
which is not a member of the tuple of strings. -/
def isRfiNoticeType (v : Option PyVal) : Bool :=
  match v with
  | some (.vStr s) => RFI_NOTICE_TYPES.contains s
  | _ => false

/-- The contracts-bucket loop of `_semantic_search` in `backend/main.py`:
for each SAM.gov search result in order, append it to `contracts` when its
`notice_type` value is not one of the RFI notice types and the bucket is
below `limit`. -/
def semanticContractsBucket (sam_results : List PyDict) (limit : Nat) : List PyDict :=
  sam_results.foldl (fun contracts item =>
    if !isRfiNoticeType (dictGet item "notice_type") then
      if contracts.length < limit then contracts ++ [item] else contracts
    else contracts) []

/-! ## Shared helpers for the theorems -/

/-- A concrete external-parser environment used to instantiate theorems on
concrete inputs: the flexible parsers always raise. -/
def trivEnv : NormEnv :=
  { gp := fun _ => .error .valueError
    isoP := fun _ => .error .valueError
    uc := id }

/-- Mapping a function that fixes every element of a list leaves the list
unchanged. -/
theorem map_fix_of_mem {α : Type} (f : α → α) :
    ∀ (l : List α), (∀ x ∈ l, f x = x) → l.map f = l
  | [], _ => rfl
  | x :: xs, h => by
    have hx := h x (List.mem_cons_self x xs)
    have hxs := map_fix_of_mem f xs (fun y hy => h y (List.mem_cons_of_mem x hy))
    simp [hx, hxs]

/-- Filtering with a predicate false on every element gives the empty
list. -/
theorem filter_false_of_mem {α : Type} (p : α → Bool) :
    ∀ (l : List α), (∀ x ∈ l, p x = false) → l.filter p = []
  | [], _ => rfl
  | x :: xs, h => by
    have hx := h x (List.mem_cons_self x xs)
    have hxs := filter_false_of_mem p xs (fun y hy => h y (List.mem_cons_of_mem x hy))
    simp [List.filter_cons, hx, hxs]

/-! ## Theorems -/

/-- C8: every raw deadline whose stripped form is 8 ASCII digits denoting a
valid MMDDYYYY calendar date is normalized by `_parse_grants_date` to the
ISO timestamp for 23:59:59 on that month/day/year. -/
theorem grants_8digit_normalizes_to_end_of_day (env : NormEnv) (s : String) (y m d : Nat)
    (hlen : (pyStrip s).toList.length = 8)
    (hdig : (pyStrip s).toList.all Char.isDigit = true)
    (hm : toNatDigits ((pyStrip s).toList.take 2) = m)
    (hd : toNatDigits (((pyStrip s).toList.drop 2).take 2) = d)
    (hy : toNatDigits ((pyStrip s).toList.drop 4) = y)
    (hv : validDate y m d = true) :
    _parse_grants_date env s =
      .ok (some (isoFormatDateTime ⟨⟨y, m, d⟩, 23, 59, 59, none⟩)) := by
  unfold _parse_grants_date
  have hcond : ((pyStrip s).toList.length == 8 && (pyStrip s).toList.all Char.isDigit) = true := by
    rw [hlen, hdig]; rfl
  simp only [hcond, if_true]
  rw [hm, hd, hy]
  simp only [hv, if_true]

/-- Witness for C8: the spec's example input, `"12312099"`, normalizes to
`2099-12-31T23:59:59`. -/
theorem grants_8digit_normalizes_witness :
    _parse_grants_date trivEnv "12312099" = .ok (some "2099-12-31T23:59:59") := by
  have h := grants_8digit_normalizes_to_end_of_day trivEnv "12312099" 2099 12 31
    (by decide) (by decide) (by decide) (by decide) (by decide) (by decide)
  simpa using h

/-- Over a caught-pair environment the exception-level normalizer raises
nothing and agrees with the value-level normalizer used by the storage
theorems: the value model is the overflow-free projection of the exception
model. -/
theorem normalize_deadline_exc_agrees (env : NormEnv) (dl : Option String) (src : String) :
    normalize_deadline_exc env.toExc dl src = .ok (normalize_deadline env dl src) := by
  have hgen : ∀ t, _parse_generic_date_exc env.toExc t =
      match _parse_generic_date env t with
      | .ok v => .ok v
      | .error e => .error (liftCaught e) := by
    intro t
    unfold _parse_generic_date_exc _parse_generic_date NormEnv.toExc
    dsimp only
    cases henv : env.gp t with
    | error e => rfl
    | ok o => cases o <;> rfl
  have hraw : ∀ s source, rawNormalizeExc env.toExc s source =
      match rawNormalize env s source with
      | .ok v => .ok v
      | .error e => .error (liftCaught e) := by
    intro s source
    unfold rawNormalizeExc rawNormalize
    by_cases hg : (source == "grants.gov") = true
    · simp only [hg, if_true]
      unfold _parse_grants_date_exc _parse_grants_date
      dsimp only
      by_cases h8 : ((pyStrip s).toList.length == 8 &&
          (pyStrip s).toList.all Char.isDigit) = true
      · simp only [h8, if_true]
        split <;> rfl
      · rw [Bool.not_eq_true] at h8
        simp only [h8, Bool.false_eq_true, if_false]
        exact hgen _
    · rw [Bool.not_eq_true] at hg
      simp only [hg, Bool.false_eq_true, if_false]
      by_cases hs : (source == "sam.gov") = true
      · simp only [hs, if_true]
        unfold _parse_sam_date_exc _parse_sam_date NormEnv.toExc
        dsimp only
        cases env.isoP (pyStrip s) <;> rfl
      · rw [Bool.not_eq_true] at hs
        simp only [hs, Bool.false_eq_true, if_false]
        exact hgen s
  cases dl with
  | none => rfl
  | some s =>
    show (if (s == "" || s == "N/A" || s == "n/a") = true then
            (.ok none : Except DateutilError (Option String))
          else match rawNormalizeExc env.toExc s src with
            | .ok v => .ok v
            | .error .valueError => .ok none
            | .error .typeError => .ok none
            | .error .overflowError => .error .overflowError) =
      .ok (if (s == "" || s == "N/A" || s == "n/a") = true then none
           else match rawNormalize env s src with
             | .ok v => v
             | .error .valueError => none
             | .error .typeError => none)
    by_cases hb : (s == "" || s == "N/A" || s == "n/a") = true
    · rw [if_pos hb, if_pos hb]
    · rw [if_neg hb, if_neg hb, hraw]
      cases h : rawNormalize env s src with
      | ok v => rfl
      | error e => cases e <;> rfl

/-- A flexible-parser environment exercising `dateutil.parser.parse`'s
documented `OverflowError` raise ("if the parsed date exceeds the largest
valid C integer on your system"). -/
def overflowEnv : NormEnvExc :=
  { gp := fun _ => .error .overflowError
    isoP := fun _ => .error .valueError
    uc := id }

/-- Counterexample to C9 as stated: with the flexible parser raising its
documented `OverflowError`, `normalize_deadline` on an unknown-source
deadline string propagates the exception instead of returning the
"unparseable" value — the function is not total over the parser's
documented raise surface, because `except (ValueError, TypeError)` does
not catch `OverflowError`. -/
theorem normalize_deadline_raises_on_overflow :
    normalize_deadline_exc overflowEnv (some "292277026596-12-04") "unknown-feed" =
      .error .overflowError ∧
    ∀ v : Option String,
      normalize_deadline_exc overflowEnv (some "292277026596-12-04") "unknown-feed" ≠
        .ok v := by
  refine ⟨rfl, ?_⟩
  intro v h
  exact Except.noConfusion h

/-- C9 as amended: `normalize_deadline` swallows exactly the caught pair —
any `ValueError` or `TypeError` raised by the dispatched parse body yields
the "unparseable" result `None` instead of propagating — but it is not
total: an `OverflowError` from the flexible parser is not caught, and it is
the only exception the function can propagate. -/
theorem normalize_deadline_swallows_only_caught (env : NormEnvExc) :
    (∀ s source e, rawNormalizeExc env s source = .error e → e ≠ .overflowError →
      normalize_deadline_exc env (some s) source = .ok none) ∧
    (∀ dl source e, normalize_deadline_exc env dl source = .error e →
      e = .overflowError) := by
  constructor
  · intro s source e h hne
    show (if (s == "" || s == "N/A" || s == "n/a") = true then
            (.ok none : Except DateutilError (Option String))
          else match rawNormalizeExc env s source with
            | .ok v => .ok v
            | .error .valueError => .ok none
            | .error .typeError => .ok none
            | .error .overflowError => .error .overflowError) = .ok none
    by_cases hb : (s == "" || s == "N/A" || s == "n/a") = true
    · rw [if_pos hb]
    · rw [if_neg hb, h]
      cases e with
      | valueError => rfl
      | typeError => rfl
      | overflowError => exact absurd rfl hne
  · intro dl source e h
    cases dl with
    | none => exact Except.noConfusion h
    | some s =>
      rw [show normalize_deadline_exc env (some s) source =
          (if (s == "" || s == "N/A" || s == "n/a") = true then
            (.ok none : Except DateutilError (Option String))
          else match rawNormalizeExc env s source with
            | .ok v => .ok v
            | .error .valueError => .ok none
            | .error .typeError => .ok none
            | .error .overflowError => .error .overflowError) from rfl] at h
      by_cases hb : (s == "" || s == "N/A" || s == "n/a") = true
      · rw [if_pos hb] at h
        exact Except.noConfusion h
      · rw [if_neg hb] at h
        cases hraw : rawNormalizeExc env s source with
        | ok v =>
          rw [hraw] at h
          exact Except.noConfusion h
        | error e' =>
          rw [hraw] at h
          cases e' with
          | valueError => exact Except.noConfusion h
          | typeError => exact Except.noConfusion h
          | overflowError => exact (Except.error.injEq _ _ ▸ congrArg id h) ▸ rfl

/-- Witness for the amended C9: a caught `ValueError` from the flexible
parser on an unknown-source string yields `None` rather than an error. -/
theorem normalize_deadline_swallows_only_caught_witness :
    rawNormalizeExc trivEnv.toExc "not a date" "unknown-feed" = .error .valueError ∧
    normalize_deadline_exc trivEnv.toExc (some "not a date") "unknown-feed" = .ok none :=
  ⟨rfl, (normalize_deadline_swallows_only_caught trivEnv.toExc).1 "not a date"
    "unknown-feed" .valueError rfl (by decide)⟩

/-- C2: `is_expired` is true on a missing deadline, true on an unparseable
deadline, and otherwise true exactly when the deadline's calendar date is
strictly before the reference date; in particular the decision depends only
on the calendar date of the deadline, not on its time of day. -/
theorem is_expired_date_granularity (d : Option String) (ref : Date) :
    (d = none → is_expired d ref = true) ∧
    (∀ s, d = some s → parse_iso_date d = none → is_expired d ref = true) ∧
    (∀ s dt, d = some s → parse_iso_date d = some dt →
      (is_expired d ref = true ↔ beforeDate dt.date ref = true)) ∧
    (∀ s1 s2 dt1 dt2, parse_iso_date (some s1) = some dt1 →
      parse_iso_date (some s2) = some dt2 → dt1.date = dt2.date →
      is_expired (some s1) ref = is_expired (some s2) ref) := by
  refine ⟨?_, ?_, ?_, ?_⟩
  · rintro rfl; rfl
  · rintro s rfl hp
    simp only [is_expired, hp]
  · rintro s dt rfl hp
    simp only [is_expired, hp]
  · rintro s1 s2 dt1 dt2 hp1 hp2 hdate
    simp only [is_expired, hp1, hp2, hdate]

/-- Witness for C2: a deadline in mid-day of 2025-01-02 is expired against
a reference date of 2025-06-01, by the strictly-before-date rule. -/
theorem is_expired_date_granularity_witness :
    is_expired (some "2025-01-02T03:04:05") ⟨2025, 6, 1⟩ = true := by
  have h := (is_expired_date_granularity (some "2025-01-02T03:04:05") ⟨2025, 6, 1⟩).2.2.1
    "2025-01-02T03:04:05" ⟨⟨2025, 1, 2⟩, 3, 4, 5, none⟩ rfl (by decide)
  exact h.mpr (by decide)

/-- A nonempty string is truthy. -/
theorem pyTruthy_some_of_ne (oid : String) (h : oid ≠ "") : pyTruthy (some oid) = true := by
  show (!oid.isEmpty) = true
  rw [Bool.eq_false_iff.mpr (fun hc => h ((String.isEmpty_iff oid).mp hc))]
  rfl

/-- `find?` over a list whose elements all fail the predicate, extended
with one element that satisfies it, finds that element. -/
theorem find?_append_singleton {α : Type} (p : α → Bool) (a : α) :
    ∀ (l : List α), (∀ x ∈ l, p x = false) → p a = true → (l ++ [a]).find? p = some a
  | [], _, ha => by simp [List.find?, ha]
  | x :: xs, h, ha => by
    have hx := h x (List.mem_cons_self x xs)
    have ih := find?_append_singleton p a xs (fun y hy => h y (List.mem_cons_of_mem x hy)) ha
    simp [List.find?, hx, ih]

/-- C1: upserting the same (truthy) external identifier twice against a
table with no row for it inserts on the first call (returning `True`),
updates on the second (returning `False`), and leaves exactly one row for
that identifier, whose mutable fields all carry the second record's
values. -/
theorem upsert_same_id_twice (env1 env2 : NormEnv) (now1 now2 : Nat) (db : List OppRow)
    (n : Nat) (r1 r2 : RawRecord) (src1 src2 : String) (oid : String)
    (h1 : r1.opportunity_id = some oid) (h2 : r2.opportunity_id = some oid)
    (hne : oid ≠ "") (hdb : ∀ row ∈ db, row.opportunity_id ≠ oid) :
    ∃ db2 : List OppRow,
      upsert_opportunity env1 now1 db n r1 src1 =
        (db ++ [{ id := n, opportunity_id := oid, source := src1,
                  title := r1.title, description := r1.description, agency := r1.agency,
                  deadline := normalize_deadline env1 r1.deadline src1,
                  funding_amount := r1.funding_amount, naics_code := r1.naics_code,
                  cfda_numbers := r1.cfda_numbers, url := r1.url,
                  notice_type := r1.notice_type, matched_keywords := r1.matched_keywords,
                  matched_naics := r1.matched_naics, updated_at := none }], n + 1, true) ∧
      upsert_opportunity env2 now2
        (db ++ [{ id := n, opportunity_id := oid, source := src1,
                  title := r1.title, description := r1.description, agency := r1.agency,
                  deadline := normalize_deadline env1 r1.deadline src1,
                  funding_amount := r1.funding_amount, naics_code := r1.naics_code,
                  cfda_numbers := r1.cfda_numbers, url := r1.url,
                  notice_type := r1.notice_type, matched_keywords := r1.matched_keywords,
                  matched_naics := r1.matched_naics, updated_at := none }]) (n + 1) r2 src2 =
        (db2, n + 1, false) ∧
      db2.filter (fun r => r.opportunity_id == oid) =
        [{ id := n, opportunity_id := oid, source := src1,
           title := r2.title, description := r2.description, agency := r2.agency,
           deadline := normalize_deadline env2 r2.deadline src2,
           funding_amount := r2.funding_amount, naics_code := r2.naics_code,
           cfda_numbers := r2.cfda_numbers, url := r2.url,
           notice_type := r2.notice_type, matched_keywords := r2.matched_keywords,
           matched_naics := r2.matched_naics, updated_at := some now2 }] := by
  have hT : pyTruthy (some oid) = true := pyTruthy_some_of_ne oid hne
  have hpred : ∀ row ∈ db, (fun (r : OppRow) => r.opportunity_id == oid) row = false := by
    intro row hr
    simpa using hdb row hr
  have hfind1 : db.find? (fun r => r.opportunity_id == oid) = none :=
    List.find?_eq_none.mpr (fun row hr => by simpa using hdb row hr)
  set row1 : OppRow :=
    { id := n, opportunity_id := oid, source := src1,
      title := r1.title, description := r1.description, agency := r1.agency,
      deadline := normalize_deadline env1 r1.deadline src1,
      funding_amount := r1.funding_amount, naics_code := r1.naics_code,
      cfda_numbers := r1.cfda_numbers, url := r1.url,
      notice_type := r1.notice_type, matched_keywords := r1.matched_keywords,
      matched_naics := r1.matched_naics, updated_at := none } with hrow1
  set row2 : OppRow :=
    { id := n, opportunity_id := oid, source := src1,
      title := r2.title, description := r2.description, agency := r2.agency,
      deadline := normalize_deadline env2 r2.deadline src2,
      funding_amount := r2.funding_amount, naics_code := r2.naics_code,
      cfda_numbers := r2.cfda_numbers, url := r2.url,
      notice_type := r2.notice_type, matched_keywords := r2.matched_keywords,
      matched_naics := r2.matched_naics, updated_at := some now2 } with hrow2
  have hfind2 : (db ++ [row1]).find? (fun r => r.opportunity_id == oid) = some row1 :=
    find?_append_singleton _ _ db hpred (by simp [hrow1])
  refine ⟨db ++ [row2], ?_, ?_, ?_⟩
  · unfold upsert_opportunity
    rw [h1]
    simp only [hT, Bool.not_true, Bool.false_eq_true, if_false, Option.getD_some, hfind1]
  · unfold upsert_opportunity
    rw [h2]
    simp only [hT, Bool.not_true, Bool.false_eq_true, if_false, Option.getD_some, hfind2]
    have hmap : (db ++ [row1]).map (fun r => if r.opportunity_id == oid then
        { r with
          title := r2.title
          description := r2.description
          agency := r2.agency
          deadline := normalize_deadline env2 r2.deadline src2
          funding_amount := r2.funding_amount
          naics_code := r2.naics_code
          cfda_numbers := r2.cfda_numbers
          url := r2.url
          notice_type := r2.notice_type
          matched_keywords := r2.matched_keywords
          matched_naics := r2.matched_naics
          updated_at := some now2 } else r) = db ++ [row2] := by
      rw [List.map_append]
      rw [map_fix_of_mem _ db (fun x hx => by simp [hpred x hx])]
      simp [hrow1, hrow2]
    rw [hmap]
  · rw [List.filter_append, filter_false_of_mem _ db hpred]
    simp [hrow2]

/-- Witness for C1: a concrete double upsert of identifier `GR-1` against
an empty table. -/
theorem upsert_same_id_twice_witness :
    ∃ db2 : List OppRow,
      upsert_opportunity trivEnv 1 [] 1
        { opportunity_id := some "GR-1", title := some "first" } "grants.gov" =
        ([{ id := 1, opportunity_id := "GR-1", source := "grants.gov",
            title := some "first", description := none, agency := none,
            deadline := normalize_deadline trivEnv none "grants.gov",
            funding_amount := none, naics_code := none,
            cfda_numbers := none, url := none,
            notice_type := none, matched_keywords := none,
            matched_naics := none, updated_at := none }], 1 + 1, true) ∧
      upsert_opportunity trivEnv 2
        ([{ id := 1, opportunity_id := "GR-1", source := "grants.gov",
            title := some "first", description := none, agency := none,
            deadline := normalize_deadline trivEnv none "grants.gov",
            funding_amount := none, naics_code := none,
            cfda_numbers := none, url := none,
            notice_type := none, matched_keywords := none,
            matched_naics := none, updated_at := none }]) (1 + 1)
        { opportunity_id := some "GR-1", title := some "second" } "grants.gov" =
        (db2, 1 + 1, false) ∧
      db2.filter (fun r => r.opportunity_id == "GR-1") =
        [{ id := 1, opportunity_id := "GR-1", source := "grants.gov",
           title := some "second", description := none, agency := none,
           deadline := normalize_deadline trivEnv none "grants.gov",
           funding_amount := none, naics_code := none,
           cfda_numbers := none, url := none,
           notice_type := none, matched_keywords := none,
           matched_naics := none, updated_at := some 2 }] :=
  upsert_same_id_twice trivEnv trivEnv 1 2 [] 1
    { opportunity_id := some "GR-1", title := some "first" }
    { opportunity_id := some "GR-1", title := some "second" }
    "grants.gov" "grants.gov" "GR-1" rfl rfl (by decide) (by simp)

/-- C10: a record with a falsy external identifier is not written at all by
`upsert_opportunity` (the table is unchanged) and the call returns `False`,
the same value that signals an update — so `_process_source` counts such a
surviving record as updated even though nothing was stored. -/
theorem falsy_id_counted_as_update (env : NormEnv) (ref : Date) (now : Nat) (source : String)
    (db : List OppRow) (nextId : Nat) (r : RawRecord) (t : Tracker) (c : Conn)
    (hid : pyTruthy r.opportunity_id = false)
    (hfresh : is_expired (normalize_deadline env r.deadline source) ref = false) :
    upsert_opportunity env now db nextId r source = (db, nextId, false) ∧
    (processRecord env ref now source (t, c) r).1.records_updated = t.records_updated + 1 ∧
    (processRecord env ref now source (t, c) r).1.records_inserted = t.records_inserted ∧
    (processRecord env ref now source (t, c) r).2.live.opps = c.live.opps := by
  have hup : ∀ (db' : List OppRow) (nid : Nat),
      upsert_opportunity env now db' nid r source = (db', nid, false) := by
    intro db' nid
    unfold upsert_opportunity
    rw [hid]
    rfl
  refine ⟨hup db nextId, ?_⟩
  unfold processRecord filter_freshness_only
  simp only [hfresh, Bool.false_eq_true, if_false, hup]
  split <;> simp [Conn.commit]

/-- Witness for C10: a fresh grants-format deadline with a missing
identifier is counted as an update and stores nothing. -/
theorem falsy_id_counted_as_update_witness :
    upsert_opportunity trivEnv 7 [] 1
      { opportunity_id := none, deadline := some "12312099" } "grants.gov" = ([], 1, false) ∧
    (processRecord trivEnv ⟨2025, 6, 1⟩ 7 "grants.gov"
      ({ run_id := 1, source := "grants.gov" }, {})
      { opportunity_id := none, deadline := some "12312099" }).1.records_updated =
      ({ run_id := 1, source := "grants.gov" } : Tracker).records_updated + 1 ∧
    (processRecord trivEnv ⟨2025, 6, 1⟩ 7 "grants.gov"
      ({ run_id := 1, source := "grants.gov" }, {})
      { opportunity_id := none, deadline := some "12312099" }).1.records_inserted =
      ({ run_id := 1, source := "grants.gov" } : Tracker).records_inserted ∧
    (processRecord trivEnv ⟨2025, 6, 1⟩ 7 "grants.gov"
      ({ run_id := 1, source := "grants.gov" }, {})
      { opportunity_id := none, deadline := some "12312099" }).2.live.opps =
      ({} : Conn).live.opps :=
  falsy_id_counted_as_update trivEnv ⟨2025, 6, 1⟩ 7 "grants.gov" [] 1
    { opportunity_id := none, deadline := some "12312099" }
    { run_id := 1, source := "grants.gov" } {} rfl (by decide)

/-- Counterexample to C3 as stated: with a configured API key, a transport
failure on the very first SAM.gov page makes `fetch` end normally with an
empty record list — the failure is not surfaced to the caller as an error —
and a transport failure on the second page silently truncates the sequence
after the first page's records. -/
theorem sam_fetch_swallows_transport_failure :
    samFetch (some "key") [Except.error ()] = .ok [] ∧
    (∀ msg, samFetch (some "key") [Except.error ()] ≠ .error msg) ∧
    samFetch (some "key") [Except.ok [{ noticeId := some "C-1" }], Except.error ()] =
      .ok [_normalize_contract { noticeId := some "C-1" }] := by
  refine ⟨rfl, ?_, rfl⟩
  intro msg h
  exact Except.noConfusion h

/-- The pagination loop yields exactly the records of the non-empty pages
that precede the first transport failure. -/
theorem samFetchLoop_truncates_at_error :
    ∀ (pref : List (List SamContract)) (rest : SamPages), (∀ p ∈ pref, p ≠ []) →
      samFetchLoop (pref.map Except.ok ++ (Except.error () :: rest)) =
        (pref.map (fun p => p.map _normalize_contract)).flatten
  | [], _, _ => rfl
  | p :: ps, rest, h => by
    have hp := h p (List.mem_cons_self p ps)
    have ih := samFetchLoop_truncates_at_error ps rest
      (fun q hq => h q (List.mem_cons_of_mem p hq))
    cases p with
    | nil => exact absurd rfl hp
    | cons x xs => simp [samFetchLoop, ih]

/-- C3 as amended: failure to reach the feed terminates the fetch sequence
early and the records already yielded remain valid, but the failure is
logged and swallowed rather than surfaced — the caller of `fetch` receives
a normally-terminated (possibly empty or truncated) sequence.  For the
SAM.gov adapter this holds for any run of non-empty pages before the first
transport error (only a missing API key raises); for the Grants.gov
adapter, a failed directory scrape or a failed download likewise yield a
normally-terminated empty sequence. -/
theorem fetch_feed_failure_silently_truncates (apiKey : Option String)
    (pref : List (List SamContract)) (rest : SamPages)
    (hkey : pyTruthy apiKey = true) (hne : ∀ p ∈ pref, p ≠ []) :
    samFetch apiKey (pref.map Except.ok ++ (Except.error () :: rest)) =
      .ok ((pref.map (fun p => p.map _normalize_contract)).flatten) ∧
    (∀ dl, grantsFetch none dl = .ok []) ∧
    (∀ url, grantsFetch url none = .ok []) := by
  refine ⟨?_, fun dl => rfl, fun url => ?_⟩
  · unfold samFetch
    rw [hkey, samFetchLoop_truncates_at_error pref rest hne]
    rfl
  · cases url <;> rfl

/-- Witness for the amended C3: one successful page of one contract, then a
transport failure. -/
theorem fetch_feed_failure_silently_truncates_witness :
    samFetch (some "key") ([[{ noticeId := some "C-1" }]].map Except.ok ++
        (Except.error () :: [])) =
      .ok (([[({ noticeId := some "C-1" } : SamContract)]].map
        (fun p => p.map _normalize_contract)).flatten) ∧
    (∀ dl, grantsFetch none dl = .ok []) ∧
    (∀ url, grantsFetch url none = .ok []) :=
  fetch_feed_failure_silently_truncates (some "key") [[{ noticeId := some "C-1" }]] []
    rfl (by simp)

/-- A stored SAM.gov record whose notice type is RFI-designated. -/
def rfiRow : OppRow :=
  { id := 1, opportunity_id := "SAM-1", source := "sam.gov",
    title := some "Cloud services market survey", description := some "Seeking information",
    agency := none, deadline := some "2099-01-01T23:59:59", funding_amount := none,
    naics_code := none, cfda_numbers := none, url := some "https://sam.gov/opp/SAM-1/view",
    notice_type := some "Sources Sought", matched_keywords := none, matched_naics := none,
    updated_at := none }

/-- C7 fails on the code: in semantic mode the contracts bucket can contain
an RFI-typed SAM.gov record.  `search_with_details` does not select
`notice_type`, so the result dict has no such key, `item.get("notice_type")`
is `None`, `None not in RFI_NOTICE_TYPES` holds, and `_semantic_search`
appends the record to the contracts bucket.  Concretely: a stored
`Sources Sought` record returned by the over-fetched SAM.gov search
(`k = limit * 2 = 40`, `limit = 20`) lands in the contracts bucket. -/
theorem semantic_contracts_bucket_admits_rfi :
    rfiRow.notice_type = some "Sources Sought" ∧
    isRfiNoticeType (some (.vStr "Sources Sought")) = true ∧
    search_with_details [rfiRow] [⟨1, "SAM-1", "sam.gov"⟩] [((1 : Rat), (0 : Int))] 40
      (some "sam.gov") 0 = .ok [detailRow rfiRow 1] ∧
    dictGet (detailRow rfiRow 1) "notice_type" = none ∧
    semanticContractsBucket [detailRow rfiRow 1] 20 = [detailRow rfiRow 1] := by
  refine ⟨rfl, by decide, ?_, rfl, rfl⟩
  rfl

/-- A Python index that is in range resolves to a member of the list. -/
theorem pyIndexList_mem (l : List IdEntry) (i : Int) (h0 : 0 ≤ i)
    (hl : i < (l.length : Int)) : ∃ e, pyIndexList l i = some e ∧ e ∈ l := by
  unfold pyIndexList
  rw [if_pos h0]
  have hn : i.toNat < l.length := by omega
  exact ⟨l.get ⟨i.toNat, hn⟩, List.get?_eq_get hn, List.get_mem l i.toNat hn⟩

/-- Loop invariant for `searchLoop`: with every neighbor index either the
`-1` sentinel or in range, the loop returns normally; it adds at most one
result per neighbor, never grows past `k` results when started below `k`,
and every returned result clears `min_score`, matches an active source
filter, and is built from an id-map entry. -/
theorem searchLoop_spec (id_map : List IdEntry) (sf : Option String) (ms : Rat) (k : Nat) :
    ∀ (ns : List (Rat × Int)) (count : Nat),
      (∀ p ∈ ns, p.2 = -1 ∨ (0 ≤ p.2 ∧ p.2 < (id_map.length : Int))) →
      ∃ rs, searchLoop id_map sf ms k ns count = .ok rs ∧
        rs.length ≤ ns.length ∧
        (count < k → count + rs.length ≤ k) ∧
        ∀ r ∈ rs, ms ≤ r.score ∧
          (pyTruthy sf = true → some r.source = sf) ∧
          ∃ e ∈ id_map, r.db_id = e.db_id ∧ r.opportunity_id = e.opportunity_id ∧
            r.source = e.source := by
  intro ns
  induction ns with
  | nil =>
    intro count _
    exact ⟨[], rfl, by simp, fun hck => by simpa using Nat.le_of_lt hck, by simp⟩
  | cons p rest ih =>
    intro count h
    obtain ⟨score, idx⟩ := p
    have hhead := h (score, idx) (List.mem_cons_self _ _)
    have hrest := fun q hq => h q (List.mem_cons_of_mem (score, idx) hq)
    by_cases hidx1 : idx == -1
    · obtain ⟨rs, hrun, hlen, hcnt, hmem⟩ := ih count hrest
      refine ⟨rs, ?_, by simp only [List.length_cons]; omega, hcnt, hmem⟩
      simp only [searchLoop, hidx1, if_true]
      exact hrun
    · by_cases hms : score < ms
      · obtain ⟨rs, hrun, hlen, hcnt, hmem⟩ := ih count hrest
        refine ⟨rs, ?_, by simp only [List.length_cons]; omega, hcnt, hmem⟩
        simp only [searchLoop, hidx1, Bool.false_eq_true, if_false, if_pos hms]
        exact hrun
      · have hrange : 0 ≤ idx ∧ idx < (id_map.length : Int) := by
          rcases hhead with h1 | h2
          · have h1' : idx = -1 := h1
            exact absurd (by simp [h1']) hidx1
          · exact h2
        obtain ⟨entry, hpy, hentry⟩ := pyIndexList_mem id_map idx hrange.1 hrange.2
        by_cases hfil : pyTruthy sf && some entry.source != sf
        · obtain ⟨rs, hrun, hlen, hcnt, hmem⟩ := ih count hrest
          refine ⟨rs, ?_, by simp only [List.length_cons]; omega, hcnt, hmem⟩
          simp only [searchLoop, hidx1, Bool.false_eq_true, if_false, if_neg hms, hpy,
            hfil, if_true]
          exact hrun
        · have hscore : ms ≤ score := le_of_not_lt hms
          have hsrc : pyTruthy sf = true → some entry.source = sf := by
            intro hT
            have hb' : (some entry.source != sf) = false := by
              cases hb : (some entry.source != sf) with
              | false => rfl
              | true => exact absurd (by rw [hT, hb]; rfl) hfil
            simpa using hb'
          by_cases hbreak : k ≤ count + 1
          · refine ⟨[⟨entry.db_id, entry.opportunity_id, entry.source, score⟩], ?_,
              by simp, fun hck => by simp only [List.length_singleton]; omega, ?_⟩
            · simp only [searchLoop, hidx1, Bool.false_eq_true, if_false, if_neg hms, hpy,
                hfil, if_pos hbreak]
            · intro r hr
              rw [List.mem_singleton] at hr
              subst hr
              exact ⟨hscore, hsrc, entry, hentry, rfl, rfl, rfl⟩
          · obtain ⟨rs, hrun, hlen, hcnt, hmem⟩ := ih (count + 1) hrest
            refine ⟨⟨entry.db_id, entry.opportunity_id, entry.source, score⟩ :: rs, ?_,
              by simp only [List.length_cons]; omega, ?_, ?_⟩
            · simp only [searchLoop, hidx1, Bool.false_eq_true, if_false, if_neg hms, hpy,
                hfil, if_neg hbreak, hrun]
            · intro hck
              have := hcnt (by omega)
              simp only [List.length_cons]
              omega
            · intro r hr
              rcases List.mem_cons.mp hr with hr | hr
              · subst hr
                exact ⟨hscore, hsrc, entry, hentry, rfl, rfl, rfl⟩
              · exact hmem r hr

/-- C5: when FAISS hands back at most the requested `search_k` neighbors
with in-range (or sentinel) indices, `search` returns normally, yields at
most `k` results, and every result clears `min_score`, matches an active
(truthy) source filter, and is derived from an id-map entry (so sentinel
slots contribute nothing). -/
theorem search_respects_filter_and_bounds (id_map : List IdEntry)
    (neighbors : List (Rat × Int)) (k : Nat) (sf : Option String) (ms : Rat)
    (hn : neighbors.length ≤ searchK k sf)
    (hidx : ∀ p ∈ neighbors, p.2 = -1 ∨ (0 ≤ p.2 ∧ p.2 < (id_map.length : Int))) :
    ∃ rs, search id_map neighbors k sf ms = .ok rs ∧
      rs.length ≤ k ∧
      ∀ r ∈ rs, ms ≤ r.score ∧
        (∀ f, sf = some f → f ≠ "" → r.source = f) ∧
        ∃ e ∈ id_map, r.db_id = e.db_id ∧ r.opportunity_id = e.opportunity_id ∧
          r.source = e.source := by
  obtain ⟨rs, hrun, hlen, hcnt, hmem⟩ := searchLoop_spec id_map sf ms k neighbors 0 hidx
  refine ⟨rs, hrun, ?_, ?_⟩
  · by_cases hk : 0 < k
    · have := hcnt hk
      omega
    · have hk0 : k = 0 := by omega
      have : searchK k sf = 0 := by
        unfold searchK
        rw [hk0]
        split <;> rfl
      omega
  · intro r hr
    obtain ⟨hsc, hsf, e, he, h1, h2, h3⟩ := hmem r hr
    refine ⟨hsc, ?_, e, he, h1, h2, h3⟩
    intro f hf hfne
    subst hf
    have := hsf (pyTruthy_some_of_ne f hfne)
    exact Option.some_injective _ this.symm ▸ rfl

/-- Witness for C5: the spec's example — neighbors `(0.91, A)` and
`(0.40, B)` with `min_score = 0.5`, `k = 5`, no source filter — returns
only `A`, within the bounds the theorem states. -/
theorem search_respects_filter_witness :
    ∃ rs, search [⟨1, "A", "x"⟩, ⟨2, "B", "y"⟩]
        [((91 : Rat)/100, (0 : Int)), ((40 : Rat)/100, (1 : Int))] 5 none (1/2) = .ok rs ∧
      rs.length ≤ 5 ∧
      ∀ r ∈ rs, (1 : Rat)/2 ≤ r.score ∧
        (∀ f, (none : Option String) = some f → f ≠ "" → r.source = f) ∧
        ∃ e ∈ [(⟨1, "A", "x"⟩ : IdEntry), ⟨2, "B", "y"⟩], r.db_id = e.db_id ∧
          r.opportunity_id = e.opportunity_id ∧ r.source = e.source :=
  search_respects_filter_and_bounds [⟨1, "A", "x"⟩, ⟨2, "B", "y"⟩]
    [((91 : Rat)/100, (0 : Int)), ((40 : Rat)/100, (1 : Int))] 5 none (1/2)
    (by decide) (by decide)

/-- Concatenating the batches of a list restores the list. -/
theorem chunkList_flatten {α : Type} : ∀ (n : Nat) (l : List α),
    (chunkList (n + 1) l).flatten = l
  | _, [] => by simp [chunkList]
  | n, x :: xs => by
    rw [chunkList]
    simp only [List.flatten_cons]
    rw [chunkList_flatten n ((x :: xs).drop (n + 1))]
    exact List.take_append_drop _ _
termination_by _ l => l.length
decreasing_by
  simp only [List.length_drop, List.length_cons]
  omega

/-- Flattening after mapping a function over every batch equals mapping the
function over the flattened list. -/
theorem flatten_map_map {α β : Type} (g : α → β) : ∀ (L : List (List α)),
    (L.map (List.map g)).flatten = L.flatten.map g
  | [] => rfl
  | b :: bs => by
    simp only [List.map_cons, List.flatten_cons, List.map_append]
    rw [flatten_map_map g bs]

/-- C6: with an order-preserving embedding provider (the §6 contract:
`embedFn` maps each batch elementwise through some `g`), a nonempty rebuild
returns an index and an id map of equal length, and for every position `i`
the vector at row `i` is the normalized embedding of the searchable text of
the `i`-th stored record while the id-map entry at `i` carries that same
record's identifiers — both artifacts built from the same record in the
same pass. -/
theorem generate_index_parallel_artifacts {V : Type} (embedFn : List String → List V)
    (norm : V → V) (batch_size : Nat) (opps : List OppRow) (g : String → V)
    (hbs : batch_size ≠ 0) (hembed : ∀ b, embedFn b = b.map g) (hopps : opps ≠ []) :
    ∃ index id_map, generate_index embedFn norm batch_size opps = some (index, id_map) ∧
      index.length = id_map.length ∧
      ∀ i (hi : i < opps.length),
        index.get? i = some (norm (g (_build_searchable_text (opps.get ⟨i, hi⟩).title
          (opps.get ⟨i, hi⟩).description))) ∧
        id_map.get? i = some ⟨(opps.get ⟨i, hi⟩).id, (opps.get ⟨i, hi⟩).opportunity_id,
          (opps.get ⟨i, hi⟩).source⟩ := by
  obtain ⟨m, rfl⟩ : ∃ m, batch_size = m + 1 := ⟨batch_size - 1, by omega⟩
  refine ⟨(opps.map (fun r => _build_searchable_text r.title r.description)).map
      (fun t => norm (g t)),
    opps.map (fun r => ⟨r.id, r.opportunity_id, r.source⟩), ?_, by simp, ?_⟩
  · unfold generate_index
    rw [if_neg hopps, funext hembed]
    dsimp only
    rw [flatten_map_map, chunkList_flatten, List.map_map]
    rfl
  · intro i hi
    constructor
    · rw [List.get?_map, List.get?_map, List.get?_eq_get hi]
      rfl
    · rw [List.get?_map, List.get?_eq_get hi]
      rfl

/-- Two sample stored rows used to instantiate the index-build theorem. -/
def sampleRowA : OppRow :=
  { id := 1, opportunity_id := "GR-1", source := "grants.gov",
    title := some "alpha", description := some "beta", agency := none,
    deadline := none, funding_amount := none, naics_code := none,
    cfda_numbers := none, url := none, notice_type := none,
    matched_keywords := none, matched_naics := none, updated_at := none }

/-- Second sample stored row. -/
def sampleRowB : OppRow :=
  { id := 2, opportunity_id := "SAM-2", source := "sam.gov",
    title := some "gamma", description := none, agency := none,
    deadline := none, funding_amount := none, naics_code := none,
    cfda_numbers := none, url := none, notice_type := none,
    matched_keywords := none, matched_naics := none, updated_at := none }

/-- Witness for C6: a two-record store with batch size 100 and a trivial
order-preserving provider yields equally long parallel artifacts. -/
theorem generate_index_parallel_artifacts_witness :
    ∃ index id_map,
      generate_index (fun b => b.map String.length) id (100 : Nat)
        [sampleRowA, sampleRowB] = some (index, id_map) ∧
      index.length = id_map.length := by
  obtain ⟨index, id_map, h1, h2, _⟩ := generate_index_parallel_artifacts
    (fun b => b.map String.length) id 100 [sampleRowA, sampleRowB] String.length
    (by decide) (fun b => rfl) (by simp)
  exact ⟨index, id_map, h1, h2⟩

/-- One loop iteration of `_process_source` never touches the run's
identity or the `ingest_runs` table. -/
theorem processRecord_preserves_runs (env : NormEnv) (ref : Date) (now : Nat)
    (source : String) (s : Tracker × Conn) (r : RawRecord) :
    (processRecord env ref now source s r).1.run_id = s.1.run_id ∧
    (processRecord env ref now source s r).2.live.runs = s.2.live.runs := by
  unfold processRecord
  cases hf : filter_freshness_only env r source ref with
  | mk o reason =>
    cases o with
    | none =>
      dsimp only
      constructor <;> split <;> rfl
    | some fr =>
      dsimp only
      constructor <;> split <;> (try split) <;> rfl

/-- Folding the record loop never touches the run's identity or the
`ingest_runs` table. -/
theorem foldl_processRecord_preserves_runs (env : NormEnv) (ref : Date) (now : Nat)
    (source : String) : ∀ (records : List RawRecord) (s : Tracker × Conn),
    (records.foldl (processRecord env ref now source) s).1.run_id = s.1.run_id ∧
    (records.foldl (processRecord env ref now source) s).2.live.runs = s.2.live.runs
  | [], s => ⟨rfl, rfl⟩
  | r :: rs, s => by
    have hstep := processRecord_preserves_runs env ref now source s r
    have ih := foldl_processRecord_preserves_runs env ref now source rs
      (processRecord env ref now source s r)
    simp only [List.foldl_cons]
    exact ⟨ih.1.trans hstep.1, ih.2.trans hstep.2⟩

/-- C4: an ingest run whose fetch raises after yielding `records` is still
finalized: `processSource` re-raises, but the run's row is committed with
status `failed`, the error message, and exactly the counters the loop
accumulated over the processed records (the same tracker `t` a successful
run over those records produces), and the committed `opportunities` table
equals the one a successful run commits — no upserted effect and no count
is lost. -/
theorem ingest_failure_preserves_counts (env : NormEnv) (ref : Date) (now : Nat)
    (c : Conn) (source : String) (records : List RawRecord) (msg : String)
    (hw : ∀ r ∈ c.live.runs, r.id ≠ c.live.nextRunId) :
    ∃ (t : Tracker) (cf cs : Conn),
      processSource env ref now c source records (some msg) = .error (msg, cf) ∧
      processSource env ref now c source records none = .ok (t, cs) ∧
      cf.committed.runs = c.live.runs ++
        [{ id := c.live.nextRunId, source := source, status := "failed",
           records_fetched := t.records_fetched,
           records_filtered_expired := t.records_filtered_expired,
           records_filtered_capability := t.records_filtered_capability,
           records_inserted := t.records_inserted,
           records_updated := t.records_updated,
           error_message := some msg, completed_at := some now }] ∧
      cf.committed.opps = cs.committed.opps := by
  refine ⟨(records.foldl (processRecord env ref now source) (trackerInit c source)).1,
    trackerComplete
      (records.foldl (processRecord env ref now source) (trackerInit c source)).1 (some msg)
      now (records.foldl (processRecord env ref now source) (trackerInit c source)).2,
    trackerComplete
      (records.foldl (processRecord env ref now source) (trackerInit c source)).1 none
      now (records.foldl (processRecord env ref now source) (trackerInit c source)).2.commit,
    rfl, rfl, ?_, rfl⟩
  have hfold := foldl_processRecord_preserves_runs env ref now source records
    (trackerInit c source)
  have hrid : (records.foldl (processRecord env ref now source)
      (trackerInit c source)).1.run_id = c.live.nextRunId := hfold.1
  have hruns : (records.foldl (processRecord env ref now source)
      (trackerInit c source)).2.live.runs =
      c.live.runs ++
        [{ id := c.live.nextRunId, source := source, status := "running",
           records_fetched := 0, records_filtered_expired := 0,
           records_filtered_capability := 0, records_inserted := 0,
           records_updated := 0, error_message := none, completed_at := none }] := hfold.2
  unfold trackerComplete Conn.commit
  dsimp only
  rw [hruns, hrid, List.map_append]
  rw [map_fix_of_mem _ c.live.runs (fun x hx => by
    have : (x.id == c.live.nextRunId) = false := by
      simpa using hw x hx
    simp [this])]
  simp

/-- Witness for C4: a single fresh record processed from an empty database
before the fetch raises. -/
theorem ingest_failure_preserves_counts_witness :
    (∀ r ∈ ({} : Conn).live.runs, r.id ≠ ({} : Conn).live.nextRunId) ∧
    ∃ (t : Tracker) (cf cs : Conn),
      processSource trivEnv ⟨2025, 6, 1⟩ 5 {} "grants.gov"
        [{ opportunity_id := some "GR-1", deadline := some "12312099" }] (some "boom") =
        .error ("boom", cf) ∧
      processSource trivEnv ⟨2025, 6, 1⟩ 5 {} "grants.gov"
        [{ opportunity_id := some "GR-1", deadline := some "12312099" }] none =
        .ok (t, cs) ∧
      cf.committed.runs = ({} : Conn).live.runs ++
        [{ id := ({} : Conn).live.nextRunId, source := "grants.gov", status := "failed",
           records_fetched := t.records_fetched,
           records_filtered_expired := t.records_filtered_expired,
           records_filtered_capability := t.records_filtered_capability,
           records_inserted := t.records_inserted,
           records_updated := t.records_updated,
           error_message := some "boom", completed_at := some 5 }] ∧
      cf.committed.opps = cs.committed.opps :=
  ⟨by simp, ingest_failure_preserves_counts trivEnv ⟨2025, 6, 1⟩ 5 {} "grants.gov"
    [{ opportunity_id := some "GR-1", deadline := some "12312099" }] "boom" (by simp)⟩

end Propbot
